import Mathlib

/-!
Verification development for the corr2 interface layer of the Stile
repository (`stile/corr2_utils.py` and `CorrelationFunctionSysTest.getCF`
in `stile/sys_tests.py`).

The Python code is shallowly embedded: Python dicts become association
lists in declaration order, Python runtime values become the inductive
type `PyVal`, and every `raise` becomes an explicit error constructor of
an `Except`.  The embedding mirrors the source faithfully, including its
oddities:

* the `options` literal in the source places `'status': 'allowed'` as a
  *top-level* key of the registry (a misplaced brace after `'project'`),
  so the entry for `'project'` has no `'status'` field and the registry
  contains a stray key `'status'` whose value is the bare string
  `'allowed'`;
* the source lists `'n2_file_name'` twice with identical descriptors; a
  Python dict literal keeps a single binding, so it appears once here;
* `check_options` receives a `check_status` parameter that its body
  never reads;
* `check_options` only *attempts* the coercion `options_type(value)` to
  see whether it would succeed; the coerced value is discarded and the
  input dict is returned unchanged.
-/

namespace Stile

/-- Python runtime values, as far as the corr2 interface manipulates them. -/
inductive PyVal where
  | str (s : String)
  | int (n : Int)
  | float (q : Rat)
  | bool (b : Bool)
  | list (l : List PyVal)
  | dict (d : List (String × PyVal))

/-- The Python type objects appearing in the `'type'` tuples of the registry. -/
inductive Ty where
  | str
  | int
  | float
  | bool
  | list
deriving DecidableEq

/-- One descriptor dict of the `options` registry: the `'type'` tuple, the
`'val'` entry (`none` embeds Python `None`), and the `'status'` entry
(`none` marks the entry that has no `'status'` key at all). -/
structure Entry where
  type : List Ty
  val : Option (List String)
  status : Option String

/-- A value of the `options` dict: either a descriptor dict, or — for the
stray top-level `'status'` key produced by the misplaced brace in the
source — a bare string. -/
inductive RegVal where
  | entry (e : Entry)
  | plainStr (s : String)

/-- The corr2 option registry `options` of `corr2_utils.py`, in source
declaration order.  The duplicated `'n2_file_name'` literal collapses to
one binding as in a Python dict. -/
def options : List (String × RegVal) := [
  ("file_name", .entry ⟨[.str, .list], none, some "captured"⟩),
  ("do_auto_corr", .entry ⟨[.bool], none, some "disallowed_computation"⟩),
  ("do_cross_corr", .entry ⟨[.bool], none, some "disallowed_computation"⟩),
  ("file_name2", .entry ⟨[.str, .list], none, some "captured"⟩),
  ("rand_file_name", .entry ⟨[.str, .list], none, some "captured"⟩),
  ("rand_file_name2", .entry ⟨[.str, .list], none, some "captured"⟩),
  ("file_list", .entry ⟨[.str, .list], none, some "disallowed_file"⟩),
  ("file_list2", .entry ⟨[.str, .list], none, some "disallowed_file"⟩),
  ("rand_file_list", .entry ⟨[.str, .list], none, some "disallowed_file"⟩),
  ("rand_file_list2", .entry ⟨[.str, .list], none, some "disallowed_file"⟩),
  ("file_type", .entry ⟨[.str], some ["ASCII", "FITS"], some "captured"⟩),
  ("delimiter", .entry ⟨[.str], none, some "captured"⟩),
  ("comment_marker", .entry ⟨[.str], none, some "captured"⟩),
  ("first_row", .entry ⟨[.int], none, some "captured"⟩),
  ("last_row", .entry ⟨[.int], none, some "captured"⟩),
  ("x_col", .entry ⟨[.int, .str], none, some "captured"⟩),
  ("y_col", .entry ⟨[.int, .str], none, some "captured"⟩),
  ("ra_col", .entry ⟨[.int, .str], none, some "captured"⟩),
  ("dec_col", .entry ⟨[.int, .str], none, some "captured"⟩),
  ("x_units", .entry ⟨[.str], none, some "allowed"⟩),
  ("y_units", .entry ⟨[.str], none, some "allowed"⟩),
  ("ra_units", .entry ⟨[.str], none, some "allowed"⟩),
  ("dec_units", .entry ⟨[.str], none, some "allowed"⟩),
  ("g1_col", .entry ⟨[.int, .str], none, some "captured"⟩),
  ("g2_col", .entry ⟨[.int, .str], none, some "captured"⟩),
  ("k_col", .entry ⟨[.int, .str], none, some "captured"⟩),
  ("w_col", .entry ⟨[.int, .str], none, some "captured"⟩),
  ("flip_g1", .entry ⟨[.bool], none, some "captured"⟩),
  ("flip_g2", .entry ⟨[.bool], none, some "captured"⟩),
  ("pairwise", .entry ⟨[.bool], none, some "disallowed_computation"⟩),
  ("project", .entry ⟨[.bool], none, none⟩),
  ("status", .plainStr "allowed"),
  ("project_ra", .entry ⟨[.float], none, some "allowed"⟩),
  ("project_dec", .entry ⟨[.float], none, some "allowed"⟩),
  ("min_sep", .entry ⟨[.float], none, some "captured"⟩),
  ("max_sep", .entry ⟨[.float], none, some "captured"⟩),
  ("nbins", .entry ⟨[.float], none, some "captured"⟩),
  ("bin_size", .entry ⟨[.float], none, some "captured"⟩),
  ("sep_units", .entry ⟨[.str], none, some "allowed"⟩),
  ("bin_slop", .entry ⟨[.float], none, some "allowed"⟩),
  ("smooth_scale", .entry ⟨[.float], none, some "allowed"⟩),
  ("n2_file_name", .entry ⟨[.str], none, some "disallowed_file"⟩),
  ("n2_statistic", .entry ⟨[.str], some ["compensated", "simple"], some "allowed"⟩),
  ("ng_file_name", .entry ⟨[.str], none, some "disallowed_file"⟩),
  ("ng_statistic", .entry ⟨[.str], some ["compensated", "simple"], some "allowed"⟩),
  ("g2_file_name", .entry ⟨[.str], none, some "disallowed_file"⟩),
  ("nk_file_name", .entry ⟨[.str], none, some "disallowed_file"⟩),
  ("nk_statistic", .entry ⟨[.str], some ["compensated", "simple"], some "allowed"⟩),
  ("k2_file_name", .entry ⟨[.str], none, some "disallowed_file"⟩),
  ("kg_file_name", .entry ⟨[.str], some ["compensated", "simple"], some "disallowed_file"⟩),
  ("precision", .entry ⟨[.int], none, some "allowed"⟩),
  ("m2_file_name", .entry ⟨[.str], none, some "disallowed_file"⟩),
  ("m2_uform", .entry ⟨[.str], some ["Schneider", "Crittenden"], some "allowed"⟩),
  ("nm_file_name", .entry ⟨[.str], none, some "disallowed_file"⟩),
  ("norm_file_name", .entry ⟨[.str], none, some "disallowed_file"⟩),
  ("verbose", .entry ⟨[.int], none, some "captured"⟩),
  ("num_threads", .entry ⟨[.int], none, some "captured"⟩),
  ("split_method", .entry ⟨[.str], some ["mean", "median", "middle"], some "allowed"⟩)]

/-- Strip one leading `+` or `-` sign. -/
def stripSign : List Char → List Char
  | '+' :: r => r
  | '-' :: r => r
  | cs => cs

/-- Split a character list on every occurrence of `c`. -/
def splitOnChar (c : Char) : List Char → List (List Char)
  | [] => [[]]
  | x :: rest =>
    if x = c then [] :: splitOnChar c rest
    else
      match splitOnChar c rest with
      | [] => [[x]]
      | g :: gs => (x :: g) :: gs

/-- Nonempty and all decimal digits. -/
def allDigits (cs : List Char) : Bool :=
  !cs.isEmpty && cs.all Char.isDigit

/-- Whether a (sign-stripped) mantissa such as `20`, `1.`, `.5`, `3.7`
is accepted by Python `float()`. -/
def mantissaOk (cs : List Char) : Bool :=
  match splitOnChar '.' cs with
  | [a] => allDigits a
  | [a, b] => (allDigits a && (b.isEmpty || allDigits b)) || (a.isEmpty && allDigits b)
  | _ => false

/-- Whether Python `float(s)` succeeds on a string `s` (finite decimal
literals with optional sign and exponent marker `e`/`E`; the `inf`/`nan`
spellings and surrounding whitespace are not exercised by this code base
and are not modelled). -/
def floatParses (s : String) : Bool :=
  match splitOnChar 'e' ((stripSign s.data).map Char.toLower) with
  | [m] => mantissaOk m
  | [m, ex] => mantissaOk m && allDigits (stripSign ex)
  | _ => false

/-- Whether Python `int(s)` succeeds on a string `s`. -/
def intParses (s : String) : Bool :=
  allDigits (stripSign s.data)

/-- `type(v) is t` for the Python types in the registry tuples: Python's
`type(x) in tup` uses exact type identity (no bool-int subtyping). -/
def tyIs : Ty → PyVal → Bool
  | .str, .str _ => true
  | .int, .int _ => true
  | .float, .float _ => true
  | .bool, .bool _ => true
  | .list, .list _ => true
  | _, _ => false

/-- `type(v) in ts`. -/
def typeMatches (ts : List Ty) (v : PyVal) : Bool :=
  ts.any (fun t => tyIs t v)

/-- Whether the Python call `t(v)` succeeds (the try/except coercion probe
in `check_options`): `str(...)` and `bool(...)` never fail; `float`/`int`
fail on non-numeric strings and on containers; `list(...)` succeeds on
any iterable (strings, lists, dicts) and fails on numbers. -/
def canCast : Ty → PyVal → Bool
  | .str, _ => true
  | .bool, _ => true
  | .float, .str s => floatParses s
  | .float, .int _ => true
  | .float, .float _ => true
  | .float, .bool _ => true
  | .float, .list _ => false
  | .float, .dict _ => false
  | .int, .str s => intParses s
  | .int, .int _ => true
  | .int, .float _ => true
  | .int, .bool _ => true
  | .int, .list _ => false
  | .int, .dict _ => false
  | .list, .str _ => true
  | .list, .list _ => true
  | .list, .dict _ => true
  | .list, .int _ => false
  | .list, .float _ => false
  | .list, .bool _ => false

/-- Python `v in vals` for a list of string literals (`ok['val']`). -/
def valMember (v : PyVal) (vals : List String) : Bool :=
  match v with
  | .str s => vals.contains s
  | _ => false

/-- The errors `check_options` can raise, one constructor per `raise`
site (plus the two crashes caused by the malformed `'project'`/`'status'`
registry bindings). -/
inductive CheckErr where
  | unknownOption (k : String)
  | forbiddenFile (k : String)
  | forbiddenComputation (k : String)
  | capturedOption (k : String)
  | statusKeyError (k : String)
  | strIndicesTypeError (k : String)
  | typeMismatch (k : String)
  | invalidValue (k : String)
deriving DecidableEq

/-- Lines 333-351 of `corr2_utils.py`: the type check with its coercion
probe, then the `if ok['val']:` membership check. -/
def typeValCheck (k : String) (e : Entry) (v : PyVal) : Option CheckErr :=
  if !typeMatches e.type v && !(e.type.any (fun t => canCast t v)) then
    some (.typeMismatch k)
  else
    match e.val with
    | none => none
    | some vals =>
      if vals.isEmpty then none
      else if valMember v vals then none
      else some (.invalidValue k)

/-- The body of the `for key in input_dict` loop of `check_options` for a
single `(key, value)` pair, with `ok = options[key]`.  `ok['status']`
raises `KeyError` on the statusless `'project'` entry and `TypeError`
(string indices) on the stray `'status'` binding. -/
def checkKey (k : String) (v : PyVal) : Option CheckErr :=
  match List.lookup k options with
  | none => some (.unknownOption k)
  | some (.plainStr _) => some (.strIndicesTypeError k)
  | some (.entry e) =>
    match e.status with
    | none => some (.statusKeyError k)
    | some st =>
      if st == "disallowed_file" then some (.forbiddenFile k)
      else if st == "disallowed_computation" then some (.forbiddenComputation k)
      else if st == "captured" then some (.capturedOption k)
      else typeValCheck k e v

/-- First error raised while traversing the dict entries in order. -/
def checkAll : List (String × PyVal) → Option CheckErr
  | [] => none
  | (k, v) :: rest =>
    match checkKey k v with
    | some e => some e
    | none => checkAll rest

/-- `check_options(input_dict, check_status)` of `corr2_utils.py`.  The
`check_status` parameter is embedded because the source declares it, but —
exactly as in the source — the body never consults it.  On success the
input dict is returned unchanged (no coerced value is stored). -/
def check_options (input_dict : List (String × PyVal))
    (check_status : Bool) : Except CheckErr (List (String × PyVal)) :=
  match checkAll input_dict with
  | some e => .error e
  | none => .ok input_dict

/-- The `column_maps` catalog of `corr2_utils.py`: for each correlation
function kind, the candidate ordered column-name lists, in source order. -/
def column_maps : List (String × List (List String)) := [
  ("n2", [
    ["r_nominal", "r_mean", "omega", "sig_omega", "dd", "rr"],
    ["r_nominal", "r_mean", "omega", "sig_omega", "dd", "rr", "dr", "rd"]]),
  ("ng", [
    ["r_nominal", "r_mean", "gamt", "gamx", "sig"],
    ["r_nominal", "r_mean", "gamt", "gamx", "sig", "weight", "npairs", "gamT_d", "gamX_d",
     "weight_d", "npairs_d", "gamT_r", "gamX_r", "weight_r", "npairs_r"],
    ["r_nominal", "r_mean", "gamt", "gamx", "sig", "r_sm", "gamT_sm", "sig_sm"],
    ["r_nominal", "r_mean", "gamt", "gamx", "sig", "weight", "npairs", "gamT_d", "gamX_d",
     "weight_d", "npairs_d", "gamT_r", "gamX_r", "weight_r", "npairs_r", "r_sm", "gamT_sm",
     "sig_sm"]]),
  ("g2", [
    ["r_nominal", "r_mean", "xi+", "xi-", "xi+_im", "xi-_im", "sig_xi", "weight", "npairs"],
    ["r_nominal", "r_mean", "xi+", "xi-", "xi+_im", "xi-_im", "sig_xi", "weight", "npairs",
     "r_sm", "xi+_sm", "xi-_sm", "sig_sm"]]),
  ("nk", [
    ["r_nominal", "r_mean", "kappa_mean", "sig", "weight", "npairs"],
    ["r_nominal", "r_mean", "kappa_mean", "sig", "kappa_d", "weight_d", "pairs_d", "kappa_r",
     "weight_r", "npairs_r"],
    ["r_nominal", "r_mean", "kappa_mean", "sig", "weight", "npairs", "r_sm", "kappa_sm",
     "sig_sm"],
    ["r_nominal", "r_mean", "kappa_mean", "sig", "kappa_d", "weight_d", "pairs_d", "kappa_r",
     "weight_r", "npairs_r", "r_sm", "kappa_sm", "sig_sm"]]),
  ("k2", [
    ["r_nominal", "r_mean", "xi", "sig_xi", "weight", "npairs"],
    ["r_nominal", "r_mean", "xi", "sig_xi", "weight", "npairs", "r_sm", "xi_sm", "sig_sm"]]),
  ("kg", [
    ["r_nominal", "r_mean", "kgamT_mean", "kgamX_mean", "sig", "weight", "npairs"],
    ["r_nominal", "r_mean", "kgamT_mean", "kgamX_mean", "sig", "kgamT_d", "kgamX_d", "weight_d",
     "npairs_d", "kgamT_r", "kgamX_r", "weight_r", "npairs_r"],
    ["r_nominal", "r_mean", "kgamT_mean", "kgamX_mean", "sig", "weight", "npairs", "r_sm",
     "kgamT_sm", "sig_sm"],
    ["r_nominal", "r_mean", "kgamT_mean", "kgamX_mean", "sig", "kgamT_d", "kgamX_d", "weight_d",
     "npairs_d", "kgamT_r", "kgamX_r", "weight_r", "npairs_r", "r_sm", "kgamT_sm", "sig_sm"]]),
  ("m2", [
    ["r", "map^2_mean", "mx^2_mean", "mmx_mean_a", "mmx_mean_b", "sig_map", "gam^2_mean",
     "sig_gam"]]),
  ("nm", [
    ["r", "nmap_mean", "nmx_mean", "sig_nmap"]]),
  ("norm", [
    ["r", "nmap_mean", "nmx_mean", "sig_nm", "n^2_mean", "sig_n^2", "map^2_mean", "sig_mm",
     "nmnorm", "sig_nmnorm", "nnnorm", "sig_nnnorm"]])]

/-- No two candidate column lists of one kind share a length. -/
def natsAllDistinct : List Nat → Bool
  | [] => true
  | n :: rest => !rest.contains n && natsAllDistinct rest

/-- Errors (and crashes) of `read_corr2_output_file`.  `unknownKind`
covers the `file_type not in column_maps` branch (whose message
formatting itself is broken in the source: two `%s` markers, one
argument — a `TypeError`; the branch still fails either way).
`truthValueAmbiguous` is the `ValueError` numpy raises when
`if not output:` evaluates the truth value of an array with more than
one element.  `scalarShapeIndexError` is the `IndexError` from
`output.shape[-1]` on the 0-d array `numpy.loadtxt` yields for a
one-number file. -/
inductive ReadErr where
  | unknownKind
  | truthValueAmbiguous
  | emptyOutput
  | scalarShapeIndexError
deriving DecidableEq

/-- `read_corr2_output_file(file_name, file_type)` of `corr2_utils.py`,
with the numeric matrix that `numpy.loadtxt` would return for the file
passed in directly (entries abstracted to integers; only zero-ness and
the shape matter to the control flow).  Matrix truthiness and shape
follow numpy: `loadtxt` squeezes, so a single row gives a 1-d array and
a single number a 0-d array; `bool(a)` raises for `a.size > 1`, and an
empty array is falsy.  Every reachable path errors before the
schema-matching loop, so the loop (which reads the undefined name
`col_list` and would raise `NameError`) and the final `make_recarray`
call are dead code; the success type records what they would build. -/
def read_corr2_output_file (output : List (List Int)) (file_type : String) :
    Except ReadErr (List String × List (List Int)) :=
  match List.lookup file_type column_maps with
  | none => .error .unknownKind
  | some _ =>
    let size := (output.map List.length).sum
    if 1 < size then .error .truthValueAmbiguous
    else
      match output.flatten with
      | [] => .error .emptyOutput
      | x :: _ => if x = 0 then .error .emptyOutput else .error .scalarShapeIndexError

/-- The destination argument of `write_corr2_param_file`: a file name
(the source then does `f = open(param_file_name)` — read-only mode — so
every write to it raises `io.UnsupportedOperation`; the embedding assumes
the file exists, as it does for the `mkstemp` paths `getCF` passes) or an
already-open writable object. -/
inductive Dest where
  | fileName (s : String)
  | writableObject

/-- Errors of `write_corr2_param_file`.  `concatTypeError`: the argument
expression `key+' = '+kwargs[key]+'\n'` is evaluated before the write, so
a non-string value raises `TypeError` on concatenation first.
`notWritable`: writing a string to the read-only handle opened from a
file name.  `positionalArgsTypeError`: the recursive call
`write_corr2_param_file(f, kwargs[key])` passes the sub-dict as a second
positional argument to a function whose signature is
`(param_file_name, **kwargs)`, a `TypeError` raised before the call body
runs.  `unserializableOption`: the explicit `raise ValueError` for an
unknown key with a non-dict value. -/
inductive WErr where
  | notWritable
  | concatTypeError (k : String)
  | positionalArgsTypeError (k : String)
  | unserializableOption (k : String)
deriving DecidableEq

/-- The `for key in kwargs` loop of `write_corr2_param_file`, threading
the text written so far; `writable` records whether the destination
handle accepts writes. -/
def writeLoop (writable : Bool) : List (String × PyVal) → String → Except WErr String
  | [], acc => .ok acc
  | (k, v) :: rest, acc =>
    if (List.lookup k options).isSome then
      match v with
      | .str s =>
        if writable then writeLoop writable rest (acc ++ k ++ " = " ++ s ++ "\n")
        else .error .notWritable
      | _ => .error (.concatTypeError k)
    else
      match v with
      | .dict _ => .error (.positionalArgsTypeError k)
      | _ => .error (.unserializableOption k)

/-- `write_corr2_param_file(param_file_name, **kwargs)` of
`corr2_utils.py`; on success the result is the full text written to the
destination. -/
def write_corr2_param_file (dest : Dest) (kwargs : List (String × PyVal)) :
    Except WErr String :=
  match dest with
  | .fileName _ => writeLoop false kwargs ""
  | .writableObject => writeLoop true kwargs ""

/-- Observable effects of one `getCF` call, in order of occurrence:
creation of the two `tempfile.mkstemp` files (the config file lands in
the working directory when `save_config` is set), the
`WriteCorr2ConfigurationFile` call, the `subprocess.check_call` spawn,
and the `os.close(handle)` calls of the final loop. -/
inductive Event where
  | mkstempConfig (cwd : Bool)
  | mkstempOutput
  | writeConfigCall
  | subprocessCall
  | closeHandle (n : Nat)
deriving DecidableEq

/-- Errors of `getCF`: the two explicit precondition `raise ValueError`
sites, a non-zero engine exit (`subprocess.CalledProcessError`), and a
failure inside `ReadCorr2ResultsFile`. -/
inductive GErr where
  | missingFileKwarg
  | noFile2ForRandom2
  | engineInvocationError
  | parsingError
deriving DecidableEq

/-- Python `k in corr2_kwargs`. -/
def hasKey (kw : List (String × PyVal)) (k : String) : Bool :=
  (List.lookup k kw).isSome

/-- The first precondition guard of `getCF` (line 119 of
`sys_tests.py`): neither `'file_list'` nor `'file_name'` present. -/
def missingFileGuard (kw : List (String × PyVal)) : Bool :=
  !(hasKey kw "file_list" || hasKey kw "file_name")

/-- The second precondition guard of `getCF` (line 121): note that the
source tests the keys `'rand_list2'` and `'rand_name2'` — names that
occur nowhere in the option registry — not `'rand_file_list2'` /
`'rand_file_name2'`. -/
def randNoFile2Guard (kw : List (String × PyVal)) : Bool :=
  (hasKey kw "rand_list2" || hasKey kw "rand_name2") &&
    !(hasKey kw "file_name2" || hasKey kw "file_list2")

/-- Lines 118-143 of `CorrelationFunctionSysTest.getCF`, starting from
the merged `corr2_kwargs` dict (the merge of `stile_args['corr2_kwargs']`,
the explicit keyword arguments, and the `MakeCorr2FileKwargs` result).
The engine run and the result parse are external and enter as the two
oracle booleans.  The trace records the effects in program order; there
is no `try`/`finally` in the source, so an exception anywhere skips
every later effect — in particular the `os.close` loop runs only after a
successful parse, and no path ever unlinks the temp files. -/
def getCF (kw : List (String × PyVal)) (save_config subprocOk parseOk : Bool) :
    Except GErr Unit × List Event :=
  if missingFileGuard kw then (.error .missingFileKwarg, [])
  else if randNoFile2Guard kw then (.error .noFile2ForRandom2, [])
  else
    let ev := [Event.mkstempConfig save_config, Event.mkstempOutput,
               Event.writeConfigCall, Event.subprocessCall]
    if !subprocOk then (.error .engineInvocationError, ev)
    else if !parseOk then (.error .parsingError, ev)
    else (.ok (), ev ++ [Event.closeHandle 0, Event.closeHandle 1])

/-- Events of a trace that release a temp-file handle. -/
def isClose : Event → Bool
  | .closeHandle _ => true
  | _ => false

/-- Events of a trace that acquire a temp file. -/
def isMkstemp : Event → Bool
  | .mkstempConfig _ => true
  | .mkstempOutput => true
  | _ => false

/-- Whether `check_options` answered with one of the two
forbidden-by-Stile errors (the `'disallowed_file'` and
`'disallowed_computation'` raise sites). -/
def isForbidden : Except CheckErr (List (String × PyVal)) → Bool
  | .error (.forbiddenFile _) => true
  | .error (.forbiddenComputation _) => true
  | _ => false

/-- Whether a `getCF` call returned normally. -/
def resultOk : Except GErr Unit → Bool
  | .ok _ => true
  | .error _ => false

/-- On a one-entry dict, `check_options` is determined by `checkKey`. -/
theorem check_options_single (k : String) (v : PyVal) (b : Bool) :
    check_options [(k, v)] b =
      match checkKey k v with
      | some c => .error c
      | none => .ok [(k, v)] := by
  unfold check_options checkAll
  cases h : checkKey k v <;> simp [h, checkAll]

/-- The type/value stage can only answer "fine", "type mismatch" or
"invalid value"; it never produces an ownership error. -/
theorem typeValCheck_cases (k : String) (e : Entry) (v : PyVal) :
    typeValCheck k e v = none ∨ typeValCheck k e v = some (.typeMismatch k) ∨
      typeValCheck k e v = some (.invalidValue k) := by
  unfold typeValCheck
  split
  · exact Or.inr (Or.inl rfl)
  · split
    · exact Or.inl rfl
    · split
      · exact Or.inl rfl
      · split
        · exact Or.inl rfl
        · exact Or.inr (Or.inr rfl)

/-- C1 (counterexample): the claim quantifies over every option declared
`allowed_types=(float,)`, but `min_sep` is such an option and
`check_options` on `{min_sep: "20"}` fails with the captured-option
error rather than succeeding; and on `{bin_slop: "20"}` it succeeds but
returns the dict unchanged — the value is still the string `"20"`, no
coerced float is stored. -/
theorem check_options_float_claim_counterexample :
    List.lookup "min_sep" options =
      some (RegVal.entry ⟨[Ty.float], none, some "captured"⟩) ∧
    check_options [("min_sep", PyVal.str "20")] true =
      .error (.capturedOption "min_sep") ∧
    check_options [("bin_slop", PyVal.str "20")] true =
      .ok [("bin_slop", PyVal.str "20")] :=
  ⟨rfl, rfl, rfl⟩

/-- C1 (amended): for every option whose registry descriptor declares
`allowed_types=(float,)` with no value set and status `'allowed'`,
`check_options` on a configuration mapping it to the string `"20"`
succeeds and returns the configuration unchanged — the stored value is
still the string `"20"` (the float coercion is only probed, its result
discarded) — while mapping it to `"abc"` fails with the type-mismatch
error; this holds for either value of `check_status`. -/
theorem check_options_float_allowed_coercion_probe (k : String) (b : Bool)
    (h : List.lookup k options =
      some (RegVal.entry ⟨[Ty.float], none, some "allowed"⟩)) :
    check_options [(k, PyVal.str "20")] b = .ok [(k, PyVal.str "20")] ∧
    check_options [(k, PyVal.str "abc")] b = .error (.typeMismatch k) := by
  have h1 : checkKey k (PyVal.str "20") = none := by
    unfold checkKey; rw [h]; rfl
  have h2 : checkKey k (PyVal.str "abc") = some (.typeMismatch k) := by
    unfold checkKey; rw [h]; rfl
  exact ⟨by rw [check_options_single, h1], by rw [check_options_single, h2]⟩

/-- C1 (witness): the amended statement instantiated at `bin_slop`. -/
theorem check_options_float_allowed_coercion_probe_witness :
    List.lookup "bin_slop" options =
      some (RegVal.entry ⟨[Ty.float], none, some "allowed"⟩) ∧
    (check_options [("bin_slop", PyVal.str "20")] true =
        .ok [("bin_slop", PyVal.str "20")] ∧
      check_options [("bin_slop", PyVal.str "abc")] true =
        .error (.typeMismatch "bin_slop")) :=
  ⟨rfl, check_options_float_allowed_coercion_probe "bin_slop" true rfl⟩

/-- C2: for every key absent from the option registry, `check_options`
on a configuration containing that key fails with the unknown-option
error, for any value and for either value of `check_status`. -/
theorem check_options_unknown_option (k : String) (v : PyVal) (b : Bool)
    (h : List.lookup k options = none) :
    check_options [(k, v)] b = .error (.unknownOption k) := by
  have hk : checkKey k v = some (.unknownOption k) := by
    unfold checkKey; rw [h]
  rw [check_options_single, hk]

/-- C2 (witness): instantiated at the unregistered key `frobnicate`. -/
theorem check_options_unknown_option_witness :
    List.lookup "frobnicate" options = none ∧
    check_options [("frobnicate", PyVal.str "x")] false =
      .error (.unknownOption "frobnicate") :=
  ⟨rfl, check_options_unknown_option "frobnicate" (PyVal.str "x") false rfl⟩

/-- C3: with `check_status=True`, for every registry key whose
descriptor is a proper entry, `check_options` answers with one of the
two forbidden-by-Stile errors exactly when the entry's status is
`'disallowed_file'` or `'disallowed_computation'`; for every other
status (including `'captured'`, whose distinct should-have-been-captured
error is not an ownership rejection) no forbidden error is produced. -/
theorem check_options_forbidden_iff_disallowed (k : String) (e : Entry) (v : PyVal)
    (h : List.lookup k options = some (RegVal.entry e)) :
    isForbidden (check_options [(k, v)] true) = true ↔
      e.status = some "disallowed_file" ∨ e.status = some "disallowed_computation" := by
  obtain ⟨ty, vl, stat⟩ := e
  rw [check_options_single]
  unfold checkKey
  rw [h]
  dsimp only
  cases stat with
  | none => simp [isForbidden]
  | some st =>
    by_cases h1 : st = "disallowed_file"
    · subst h1; simp [isForbidden]
    · by_cases h2 : st = "disallowed_computation"
      · subst h2; simp [isForbidden, h1]
      · by_cases h3 : st = "captured"
        · subst h3; simp [isForbidden, h1, h2]
        · rcases typeValCheck_cases k ⟨ty, vl, some st⟩ v with h4 | h4 | h4 <;>
            simp [h1, h2, h3, h4, isForbidden]

/-- C3 (witness): instantiated at the orchestrator-owned key
`do_auto_corr`. -/
theorem check_options_forbidden_iff_disallowed_witness :
    List.lookup "do_auto_corr" options =
      some (RegVal.entry ⟨[Ty.bool], none, some "disallowed_computation"⟩) ∧
    (isForbidden (check_options [("do_auto_corr", PyVal.bool true)] true) = true ↔
      (Entry.mk [Ty.bool] none (some "disallowed_computation")).status =
          some "disallowed_file" ∨
        (Entry.mk [Ty.bool] none (some "disallowed_computation")).status =
          some "disallowed_computation") :=
  ⟨rfl, check_options_forbidden_iff_disallowed "do_auto_corr"
    ⟨[Ty.bool], none, some "disallowed_computation"⟩ (PyVal.bool true) rfl⟩

/-- C4: within each correlation-function kind of `column_maps`, no two
candidate column-name lists have the same length, so a column count
determines at most one schema. -/
theorem column_maps_lengths_injective_per_kind :
    column_maps.all (fun kv => natsAllDistinct (kv.2.map List.length)) = true := by
  decide

/-- C5: a one-row, seven-column output matrix for kind `k2` does not
reach the schema-mismatch raise: the emptiness guard `if not output:`
evaluates the truth value of a seven-element numpy array, which raises
first.  The valid `k2` column counts are 6 and 9 (the spec's quoted
"6 or 10" is also off), so 7 indeed matches no schema. -/
theorem read_corr2_output_seven_column_k2 :
    read_corr2_output_file [[1, 2, 3, 4, 5, 6, 7]] "k2" =
      .error .truthValueAmbiguous ∧
    ((List.lookup "k2" column_maps).getD []).map List.length = [6, 9] :=
  ⟨rfl, rfl⟩

/-- C6: serialization does not behave as claimed: a file-name
destination is opened read-only, so writing the very first entry of a
valid configuration fails; a valid configuration holding a float value
(accepted by `check_options`) crashes on string concatenation instead of
being formatted; only a writable-object destination with all-string
values produces the claimed `key = value` lines. -/
theorem write_corr2_param_file_roundtrip_claim_eval :
    write_corr2_param_file (.fileName "param_file") [("sep_units", PyVal.str "degrees")] =
      .error .notWritable ∧
    check_options [("bin_slop", PyVal.float (1 / 2 : Rat))] true =
      .ok [("bin_slop", PyVal.float (1 / 2 : Rat))] ∧
    write_corr2_param_file .writableObject [("bin_slop", PyVal.float (1 / 2 : Rat))] =
      .error (.concatTypeError "bin_slop") ∧
    write_corr2_param_file .writableObject
        [("sep_units", PyVal.str "degrees"), ("bin_slop", PyVal.str "0.5")] =
      .ok "sep_units = degrees\nbin_slop = 0.5\n" :=
  ⟨rfl, rfl, rfl, rfl⟩

/-- C7: an entry whose key is unknown and whose value is a mapping hits
the recursive call, which passes the sub-dict as a second positional
argument to a one-positional-parameter function and therefore raises
`TypeError` instead of flattening it; an unknown key with a non-mapping
value does fail with the unserializable-option error as claimed. -/
theorem write_corr2_param_file_nested_dict_eval :
    write_corr2_param_file .writableObject
        [("corr2_options", PyVal.dict [("sep_units", PyVal.str "degrees")])] =
      .error (.positionalArgsTypeError "corr2_options") ∧
    write_corr2_param_file .writableObject [("not_an_option", PyVal.str "x")] =
      .error (.unserializableOption "not_an_option") :=
  ⟨rfl, rfl⟩

/-- C8: a merged configuration with `rand_file_name2` but neither
`file_name2` nor `file_list2` is NOT rejected — the guard tests the
nonexistent key names `rand_list2`/`rand_name2` — so temp files are
created and the engine spawned; the no-file-at-all case is rejected
before any effect, as claimed. -/
theorem getCF_rand_file2_precondition_eval :
    getCF [("file_name", PyVal.str "d.dat"), ("rand_file_name2", PyVal.str "r2.dat")]
        false true true =
      (.ok (), [.mkstempConfig false, .mkstempOutput, .writeConfigCall, .subprocessCall,
                .closeHandle 0, .closeHandle 1]) ∧
    getCF [] false true true = (.error .missingFileKwarg, []) :=
  ⟨rfl, rfl⟩

/-- C9 (counterexample): with the same configuration, the
engine-failure and parse-failure traces contain no handle-release
events, while the success trace closes both handles — the failure paths
do not release the temporary resources as the success path does, even
though both temp files were created. -/
theorem getCF_cleanup_claim_counterexample :
    (getCF [("file_name", PyVal.str "d.dat")] false false true).2.filter isClose = [] ∧
    (getCF [("file_name", PyVal.str "d.dat")] false true false).2.filter isClose = [] ∧
    (getCF [("file_name", PyVal.str "d.dat")] false true true).2.filter isClose =
      [Event.closeHandle 0, Event.closeHandle 1] ∧
    (getCF [("file_name", PyVal.str "d.dat")] false false true).2.filter isMkstemp =
      [Event.mkstempConfig false, Event.mkstempOutput] :=
  ⟨rfl, rfl, rfl, rfl⟩

/-- C9 (amended): for every merged configuration passing the
precondition guards, whenever the engine invocation or the result parse
fails, the call errors out with a trace that created both temp files and
spawned the engine but contains no `os.close` event — the close loop
runs only on the success path, and no path unlinks the temp files. -/
theorem getCF_failure_paths_skip_close (kw : List (String × PyVal)) (sc sOk pOk : Bool)
    (h1 : missingFileGuard kw = false) (h2 : randNoFile2Guard kw = false)
    (h3 : sOk = false ∨ pOk = false) :
    resultOk (getCF kw sc sOk pOk).1 = false ∧
    (getCF kw sc sOk pOk).2 =
      [Event.mkstempConfig sc, Event.mkstempOutput, Event.writeConfigCall,
       Event.subprocessCall] := by
  unfold getCF
  rcases h3 with h3 | h3 <;> subst h3
  · simp [h1, h2, resultOk]
  · cases sOk <;> simp [h1, h2, resultOk]

/-- C9 (witness): the amended statement instantiated at a minimal
configuration with a failing engine invocation. -/
theorem getCF_failure_paths_skip_close_witness :
    missingFileGuard [("file_name", PyVal.str "d.dat")] = false ∧
    randNoFile2Guard [("file_name", PyVal.str "d.dat")] = false ∧
    (resultOk (getCF [("file_name", PyVal.str "d.dat")] false false true).1 = false ∧
      (getCF [("file_name", PyVal.str "d.dat")] false false true).2 =
        [Event.mkstempConfig false, Event.mkstempOutput, Event.writeConfigCall,
         Event.subprocessCall]) :=
  ⟨rfl, rfl,
    getCF_failure_paths_skip_close [("file_name", PyVal.str "d.dat")] false false true
      rfl rfl (Or.inl rfl)⟩

/-- C10: the registry entry for `kg_file_name` does carry the closed
value set `['compensated','simple']`, but even with `check_status=False`
the validator rejects every value — including the members of that set —
with the forbidden (disallowed-file) error, not the invalid-value error:
the body of `check_options` never reads its `check_status` parameter,
contradicting its docstring, so the status check always fires first. -/
theorem check_options_kg_file_name_eval :
    List.lookup "kg_file_name" options =
      some (RegVal.entry ⟨[Ty.str], some ["compensated", "simple"], some "disallowed_file"⟩) ∧
    check_options [("kg_file_name", PyVal.str "/tmp/stile_kg_output.dat")] false =
      .error (.forbiddenFile "kg_file_name") ∧
    check_options [("kg_file_name", PyVal.str "compensated")] false =
      .error (.forbiddenFile "kg_file_name") :=
  ⟨rfl, rfl, rfl⟩

end Stile
